import Mathlib

/-!
Shallow embedding of the ClassMe privilege subsystem.

Sources embedded:
- src/src/actions/admin/privileges.ts      (assignDosenPrivilege, removeDosenPrivilege,
                                            assignKetuaUmum, toDosenPrismaEnum)
- src/src/actions/ketua-umum/privileges.ts (assignMahasiswaPrivilege, removeMahasiswaPrivilege,
                                            toMahasiswaPrismaEnum, verifyKetuaUmum)
- src/src/lib/auth/permissions.ts          (hasMahasiswaPrivilege, isKetuaUmum,
                                            getMahasiswaPrivilegesForClass, getEnrollmentId)
- src/src/lib/auth/session.ts              (stringToUserType, requireRole)

The database is modelled as in-memory lists of rows; each Prisma call is the
corresponding list operation (findFirst = List.find?, deleteMany = List.filter
with the negated match, create = append of one row, delete-by-id = filter on id).
Prisma `create` can fail at the store (the TS code catches the exception); that
possibility is modelled by an explicit `createOk : Bool` oracle argument: `true`
is a create that succeeds, `false` a create that throws.  Role kinds are kept as
strings, exactly as they travel through the TS code at runtime.
-/

namespace ClassMe

/-- One row of the `mahasiswaPrivilege` table (Prisma model MahasiswaPrivilege).
`privilegeType` holds the stored uppercase enum value, e.g. "KETUA_UMUM". -/
structure MahasiswaPrivilegeRow where
  id : String
  enrollmentId : String
  classId : String
  privilegeType : String
  groupId : Option String
  fanIlmuId : Option String
  assignedBy : String
deriving Repr, DecidableEq

/-- One row of the `dosenPrivilege` table (Prisma model DosenPrivilege). -/
structure DosenPrivilegeRow where
  userId : String
  classId : String
  privilegeType : String
  assignedBy : String
deriving Repr, DecidableEq

/-- One row of the `classEnrollment` table; `status` is the stored enum value,
"ACTIVE" for an active enrollment. -/
structure EnrollmentRow where
  id : String
  userId : String
  classId : String
  status : String
deriving Repr, DecidableEq

/-- One row of the `group` table: a Group belongs to exactly one Class. -/
structure GroupRow where
  id : String
  classId : String
deriving Repr, DecidableEq

/-- One row of the `fanIlmu` (study area) table. -/
structure FanIlmuRow where
  id : String
  classId : String
deriving Repr, DecidableEq

/-- The record store visible to the privilege subsystem. -/
structure DB where
  enrollments : List EnrollmentRow
  mahasiswaPrivileges : List MahasiswaPrivilegeRow
  dosenPrivileges : List DosenPrivilegeRow
  groups : List GroupRow
  fanIlmus : List FanIlmuRow
deriving Repr, DecidableEq

/-- The discriminated result returned by every mutation action
(TS type PrivilegeFormState: either `{success, message}` or `{errors: {general}}`). -/
inductive PrivilegeFormState where
  | success (message : String)
  | failure (general : List String)
deriving Repr, DecidableEq

/-- The acting session user as consumed by requireRole (session.ts):
id plus the lowercase global role string. -/
structure SessionUser where
  id : String
  userType : String
deriving Repr, DecidableEq

/-- Model of JavaScript `String.prototype.toUpperCase`, character by character;
it agrees with it on the ASCII strings the privilege layer handles. -/
def toUpperAscii (s : String) : String :=
  String.mk (s.data.map Char.toUpper)

/-- Model of JavaScript `String.prototype.toLowerCase`, character by character. -/
def toLowerAscii (s : String) : String :=
  String.mk (s.data.map Char.toLower)

/-- toMahasiswaPrismaEnum (ketua-umum/privileges.ts line 24): a bare
`type.toUpperCase()` cast with no membership check. -/
def toMahasiswaPrismaEnum (type : String) : String :=
  toUpperAscii type

/-- toDosenPrismaEnum (admin/privileges.ts line 22): a bare
`type.toUpperCase()` cast with no membership check. -/
def toDosenPrismaEnum (type : String) : String :=
  toUpperAscii type

/-- stringToUserType (session.ts lines 35-42): table lookup on the lowercased
string with `|| "MAHASISWA"` as the fallback. -/
def stringToUserType (str : String) : String :=
  let s := toLowerAscii str
  if s == "admin" then "ADMIN"
  else if s == "dosen" then "DOSEN"
  else if s == "mahasiswa" then "MAHASISWA"
  else "MAHASISWA"

/-- requireRole (session.ts lines 116-124): `none` session is Unauthorized,
a session whose userType is outside the allowed list is Forbidden. -/
def requireRole (session : Option SessionUser) (allowedRoles : List String) :
    Except String SessionUser :=
  match session with
  | none => Except.error "Unauthorized"
  | some u =>
    if allowedRoles.contains u.userType then Except.ok u
    else Except.error "Forbidden"

/-- The `classEnrollment.findFirst({userId, classId, status: "ACTIVE"})` query
shared by permissions.ts (hasMahasiswaPrivilege, getMahasiswaPrivilegesForClass,
getEnrollmentId) and admin/privileges.ts (assignKetuaUmum). -/
def findActiveEnrollment (db : DB) (userId classId : String) :
    Option EnrollmentRow :=
  db.enrollments.find? fun e =>
    e.userId == userId && e.classId == classId && e.status == "ACTIVE"

/-- hasMahasiswaPrivilege (permissions.ts): resolve the active enrollment first;
without one the answer is false regardless of stored privilege rows; otherwise
look for a privilege row keyed by (enrollmentId, classId, roleKind). -/
def hasMahasiswaPrivilege (db : DB) (userId classId privilegeType : String) :
    Bool :=
  match findActiveEnrollment db userId classId with
  | none => false
  | some enrollment =>
    (db.mahasiswaPrivileges.find? fun p =>
      p.enrollmentId == enrollment.id && p.classId == classId &&
        p.privilegeType == toMahasiswaPrismaEnum privilegeType).isSome

/-- isKetuaUmum (permissions.ts): sugar for hasMahasiswaPrivilege "ketua_umum". -/
def isKetuaUmum (db : DB) (userId classId : String) : Bool :=
  hasMahasiswaPrivilege db userId classId "ketua_umum"

/-- getMahasiswaPrivilegesForClass (permissions.ts): empty without an active
enrollment, else the lowercased role kinds of all rows for that enrollment. -/
def getMahasiswaPrivilegesForClass (db : DB) (userId classId : String) :
    List String :=
  match findActiveEnrollment db userId classId with
  | none => []
  | some enrollment =>
    (db.mahasiswaPrivileges.filter fun p =>
      p.enrollmentId == enrollment.id && p.classId == classId).map
      fun p => toLowerAscii p.privilegeType

/-- getEnrollmentId (permissions.ts): id of the active enrollment, if any. -/
def getEnrollmentId (db : DB) (userId classId : String) : Option String :=
  (findActiveEnrollment db userId classId).map EnrollmentRow.id

/-- verifyKetuaUmum (ketua-umum/privileges.ts lines 39-51): throws Unauthorized
without a session, Forbidden when the session user is not the class's Ketua
Umum; on success the caller keeps using the session user's id. -/
def verifyKetuaUmum (db : DB) (session : Option String) (classId : String) :
    Except String String :=
  match session with
  | none => Except.error "Unauthorized"
  | some uid =>
    if isKetuaUmum db uid classId then Except.ok uid
    else Except.error "Forbidden - Only Ketua Umum can perform this action"

/-- The optional `options` argument of assignMahasiswaPrivilege. -/
structure AssignOptions where
  groupId : Option String
  fanIlmuId : Option String
deriving Repr, DecidableEq

/-- JS `options?.groupId`: undefined when the whole object is undefined. -/
def optGroupId (options : Option AssignOptions) : Option String :=
  match options with
  | none => none
  | some o => o.groupId

/-- JS `options?.fanIlmuId`. -/
def optFanIlmuId (options : Option AssignOptions) : Option String :=
  match options with
  | none => none
  | some o => o.fanIlmuId

/-- JS truthiness of an optional string: undefined and "" are falsy. -/
def truthyStr (o : Option String) : Bool :=
  match o with
  | none => false
  | some s => !(s == "")

/-- The three conditional deleteMany calls of assignMahasiswaPrivilege
(ketua-umum/privileges.ts lines 141-171), in the order the source issues them:
wipe the class's holder of a singular kind (sekretaris/bendahara/kamtib), wipe
the (class, group) holder for ketua_kelompok, wipe the (class, study area)
holder for ketua_fan_ilmu. -/
def assignDeleteMany (rows : List MahasiswaPrivilegeRow)
    (classId privilegeType : String) (options : Option AssignOptions) :
    List MahasiswaPrivilegeRow :=
  let rows1 :=
    if (["sekretaris", "bendahara", "kamtib"] : List String).contains
        privilegeType then
      rows.filter fun r =>
        !(r.classId == classId &&
          r.privilegeType == toMahasiswaPrismaEnum privilegeType)
    else rows
  let rows2 :=
    if privilegeType == "ketua_kelompok" && truthyStr (optGroupId options) then
      rows1.filter fun r =>
        !(r.classId == classId && r.privilegeType == "KETUA_KELOMPOK" &&
          r.groupId == optGroupId options)
    else rows1
  if privilegeType == "ketua_fan_ilmu" && truthyStr (optFanIlmuId options) then
    rows2.filter fun r =>
      !(r.classId == classId && r.privilegeType == "KETUA_FAN_ILMU" &&
        r.fanIlmuId == optFanIlmuId options)
  else rows2

/-- assignMahasiswaPrivilege (ketua-umum/privileges.ts lines 112-191).
Faithful sequence: verifyKetuaUmum; getEnrollmentId; scope-presence guards for
ketua_kelompok / ketua_fan_ilmu; the deleteMany calls; create.
`newId` is the row id the store would mint; `createOk = false` is a create that
throws, landing in the catch block, which performs no rollback. -/
def assignMahasiswaPrivilege (db : DB) (session : Option String)
    (classId targetUserId privilegeType : String)
    (options : Option AssignOptions) (newId : String) (createOk : Bool) :
    DB × PrivilegeFormState :=
  match verifyKetuaUmum db session classId with
  | Except.error msg => (db, PrivilegeFormState.failure [msg])
  | Except.ok actorId =>
    match getEnrollmentId db targetUserId classId with
    | none =>
      (db, PrivilegeFormState.failure ["Mahasiswa tidak terdaftar di kelas ini"])
    | some enrollmentId =>
      if privilegeType == "ketua_kelompok" && !truthyStr (optGroupId options) then
        (db, PrivilegeFormState.failure
          ["Kelompok harus dipilih untuk Ketua Kelompok"])
      else if privilegeType == "ketua_fan_ilmu" && !truthyStr (optFanIlmuId options) then
        (db, PrivilegeFormState.failure
          ["Fan Ilmu harus dipilih untuk Ketua Fan Ilmu"])
      else
        let rows3 := assignDeleteMany db.mahasiswaPrivileges classId
          privilegeType options
        if createOk then
          ({ db with mahasiswaPrivileges := rows3 ++
              [{ id := newId, enrollmentId := enrollmentId, classId := classId,
                 privilegeType := toMahasiswaPrismaEnum privilegeType,
                 groupId := optGroupId options, fanIlmuId := optFanIlmuId options,
                 assignedBy := actorId }] },
           PrivilegeFormState.success "Privilege berhasil diberikan")
        else
          ({ db with mahasiswaPrivileges := rows3 },
           PrivilegeFormState.failure ["Gagal memberikan privilege"])

/-- removeMahasiswaPrivilege (ketua-umum/privileges.ts lines 194-225):
verifyKetuaUmum; refuse "ketua_umum"; otherwise deleteMany on
(enrollmentId, classId, roleKind) and report success. -/
def removeMahasiswaPrivilege (db : DB) (session : Option String)
    (classId enrollmentId privilegeType : String) : DB × PrivilegeFormState :=
  match verifyKetuaUmum db session classId with
  | Except.error msg => (db, PrivilegeFormState.failure [msg])
  | Except.ok _ =>
    if privilegeType == "ketua_umum" then
      (db, PrivilegeFormState.failure
        ["Tidak dapat menghapus privilege Ketua Umum"])
    else
      ({ db with mahasiswaPrivileges := db.mahasiswaPrivileges.filter fun r =>
          !(r.enrollmentId == enrollmentId && r.classId == classId &&
            r.privilegeType == toMahasiswaPrismaEnum privilegeType) },
       PrivilegeFormState.success "Privilege berhasil dihapus")

/-- assignDosenPrivilege (admin/privileges.ts lines 73-114): requireRole admin;
findFirst on (userId, classId, roleKind); duplicate means failure without
mutation; otherwise create one row stamped with the actor's id. -/
def assignDosenPrivilege (db : DB) (session : Option SessionUser)
    (userId classId privilegeType : String) (createOk : Bool) :
    DB × PrivilegeFormState :=
  match requireRole session ["admin"] with
  | Except.error _ => (db, PrivilegeFormState.failure ["Unauthorized"])
  | Except.ok actor =>
    match db.dosenPrivileges.find? (fun r =>
        r.userId == userId && r.classId == classId &&
          r.privilegeType == toDosenPrismaEnum privilegeType) with
    | some _ => (db, PrivilegeFormState.failure ["Privilege sudah diberikan"])
    | none =>
      if createOk then
        ({ db with dosenPrivileges := db.dosenPrivileges ++
            [{ userId := userId, classId := classId,
               privilegeType := toDosenPrismaEnum privilegeType,
               assignedBy := actor.id }] },
         PrivilegeFormState.success "Privilege berhasil diberikan")
      else
        (db, PrivilegeFormState.failure ["Gagal memberikan privilege"])

/-- removeDosenPrivilege (admin/privileges.ts lines 117-143): requireRole admin,
then deleteMany on (userId, classId, roleKind) and report success. -/
def removeDosenPrivilege (db : DB) (session : Option SessionUser)
    (userId classId privilegeType : String) : DB × PrivilegeFormState :=
  match requireRole session ["admin"] with
  | Except.error _ => (db, PrivilegeFormState.failure ["Unauthorized"])
  | Except.ok _ =>
    ({ db with dosenPrivileges := db.dosenPrivileges.filter fun r =>
        !(r.userId == userId && r.classId == classId &&
          r.privilegeType == toDosenPrismaEnum privilegeType) },
     PrivilegeFormState.success "Privilege berhasil dihapus")

/-- assignKetuaUmum (admin/privileges.ts lines 146-203): requireRole admin;
findFirst of the target's ACTIVE enrollment; findFirst of an existing
KETUA_UMUM row for the class and delete it by id when present; then create the
new grant.  Delete and create are two separate store calls with no transaction;
on a create failure the catch block returns an error without restoring the
deleted row. -/
def assignKetuaUmum (db : DB) (session : Option SessionUser)
    (userId classId : String) (newId : String) (createOk : Bool) :
    DB × PrivilegeFormState :=
  match requireRole session ["admin"] with
  | Except.error _ => (db, PrivilegeFormState.failure ["Unauthorized"])
  | Except.ok actor =>
    match findActiveEnrollment db userId classId with
    | none =>
      (db, PrivilegeFormState.failure ["Mahasiswa tidak terdaftar di kelas ini"])
    | some enrollment =>
      let existing := db.mahasiswaPrivileges.find? fun p =>
        p.classId == classId && p.privilegeType == "KETUA_UMUM"
      let rows1 :=
        match existing with
        | some ex => db.mahasiswaPrivileges.filter fun p => !(p.id == ex.id)
        | none => db.mahasiswaPrivileges
      if createOk then
        ({ db with mahasiswaPrivileges := rows1 ++
            [{ id := newId, enrollmentId := enrollment.id, classId := classId,
               privilegeType := "KETUA_UMUM", groupId := none, fanIlmuId := none,
               assignedBy := actor.id }] },
         PrivilegeFormState.success "Ketua Umum berhasil ditunjuk")
      else
        ({ db with mahasiswaPrivileges := rows1 },
         PrivilegeFormState.failure ["Gagal menunjuk Ketua Umum"])

/-- Number of StudentPrivilege rows in a row list for one class and one stored
role kind (the measurement behind the SINGULARITY invariant). -/
def roleCountRows (rows : List MahasiswaPrivilegeRow)
    (classId storedKind : String) : Nat :=
  rows.countP fun r => r.classId == classId && r.privilegeType == storedKind

/-- Number of KETUA_KELOMPOK rows in a row list for one (class, group) pair. -/
def groupLeaderCountRows (rows : List MahasiswaPrivilegeRow)
    (classId groupId : String) : Nat :=
  rows.countP fun r =>
    r.classId == classId && r.privilegeType == "KETUA_KELOMPOK" &&
      r.groupId == some groupId

/-- Number of KETUA_FAN_ILMU rows in a row list for one (class, study area)
pair. -/
def fanLeaderCountRows (rows : List MahasiswaPrivilegeRow)
    (classId fanIlmuId : String) : Nat :=
  rows.countP fun r =>
    r.classId == classId && r.privilegeType == "KETUA_FAN_ILMU" &&
      r.fanIlmuId == some fanIlmuId

/-- Number of StudentPrivilege rows for a class with a given stored role kind. -/
def roleCount (db : DB) (classId storedKind : String) : Nat :=
  roleCountRows db.mahasiswaPrivileges classId storedKind

/-- Number of KETUA_KELOMPOK rows for one (class, group) pair. -/
def groupLeaderCount (db : DB) (classId groupId : String) : Nat :=
  groupLeaderCountRows db.mahasiswaPrivileges classId groupId

/-- Number of KETUA_FAN_ILMU rows for one (class, study area) pair. -/
def fanLeaderCount (db : DB) (classId fanIlmuId : String) : Nat :=
  fanLeaderCountRows db.mahasiswaPrivileges classId fanIlmuId

/-- The SINGULARITY condition on a list of StudentPrivilege rows: at most one
Secretary/Treasurer/Discipline-Officer per class, one Group-Leader per
(class, group), one StudyArea-Leader per (class, study area). -/
def singularRows (rows : List MahasiswaPrivilegeRow) : Prop :=
  (∀ c t, t ∈ (["SEKRETARIS", "BENDAHARA", "KAMTIB"] : List String) →
    roleCountRows rows c t ≤ 1) ∧
  (∀ c g, groupLeaderCountRows rows c g ≤ 1) ∧
  (∀ c f, fanLeaderCountRows rows c f ≤ 1)

/-- The SINGULARITY invariant over the role kinds assignable through
assignMahasiswaPrivilege. -/
def singularInvariant (db : DB) : Prop :=
  singularRows db.mahasiswaPrivileges

/-! ### Generic counting lemmas -/

/-- In a list with at most one element satisfying `p`, any two members
satisfying `p` coincide. -/
theorem uniqueP_of_countP_le_one {α : Type} {p : α → Bool} {l : List α}
    (hcount : l.countP p ≤ 1) {a b : α} (ha : a ∈ l) (hpa : p a = true)
    (hb : b ∈ l) (hpb : p b = true) : a = b := by
  have hlen : (l.filter p).length ≤ 1 := by
    rw [← List.countP_eq_length_filter]; exact hcount
  have ha' : a ∈ l.filter p := List.mem_filter.2 ⟨ha, hpa⟩
  have hb' : b ∈ l.filter p := List.mem_filter.2 ⟨hb, hpb⟩
  cases hfl : l.filter p with
  | nil => rw [hfl] at ha'; cases ha'
  | cons x xs =>
    cases xs with
    | nil =>
      rw [hfl] at ha' hb'
      simp only [List.mem_singleton] at ha' hb'
      rw [ha', hb']
    | cons y ys =>
      rw [hfl] at hlen
      simp at hlen

/-- Membership of a `p`-element makes the `p`-count positive. -/
theorem one_le_countP_of_mem {α : Type} {p : α → Bool} {l : List α} {a : α}
    (ha : a ∈ l) (hpa : p a = true) : 1 ≤ l.countP p :=
  List.countP_pos_iff.2 ⟨a, ha, hpa⟩

/-- Filtering with a predicate that rejects every `p`-element zeroes the
`p`-count. -/
theorem countP_filter_zero {α : Type} {p k : α → Bool} (l : List α)
    (h : ∀ a, p a = true → k a = false) : (l.filter k).countP p = 0 := by
  rw [List.countP_filter, List.countP_eq_zero]
  intro a _ hc
  simp only [Bool.and_eq_true] at hc
  have hk := h a hc.1
  rw [hk] at hc
  exact Bool.noConfusion hc.2

/-- Filtering with a predicate that keeps every `p`-element preserves the
`p`-count. -/
theorem countP_filter_same {α : Type} {p k : α → Bool} (l : List α)
    (h : ∀ a, p a = true → k a = true) : (l.filter k).countP p = l.countP p := by
  rw [List.countP_filter]
  have hfun : (fun a => p a && k a) = p := by
    funext a
    cases hpa : p a with
    | false => simp
    | true => simp [h a hpa]
  rw [hfun]

/-- Delete-then-insert where the delete spares all `p`-elements and the new row
is not counted: the `p`-count is unchanged. -/
theorem countP_replace_untouched {α : Type} {p k : α → Bool} (l : List α)
    {x : α} (h : ∀ a, p a = true → k a = true) (hx : p x = false) :
    (l.filter k ++ [x]).countP p = l.countP p := by
  rw [List.countP_append, countP_filter_same l h]
  simp [hx]

/-- Delete-then-insert where the delete removes every `p`-element and the new
row is counted: the `p`-count becomes exactly one. -/
theorem countP_replace_wiped {α : Type} {p k : α → Bool} (l : List α)
    {x : α} (h : ∀ a, p a = true → k a = false) (hx : p x = true) :
    (l.filter k ++ [x]).countP p = 1 := by
  rw [List.countP_append, countP_filter_zero l h]
  simp [hx]

/-- Removing one designated element (whatever else `k` does to it) from a list
holding at most one `p`-element leaves no `p`-element behind. -/
theorem filter_filter_eq_nil_of_unique {α : Type} {p k : α → Bool}
    {l : List α} {ex : α} (hmem : ex ∈ l) (hpex : p ex = true)
    (hcount : l.countP p ≤ 1) (hkex : k ex = false) :
    (l.filter k).filter p = [] := by
  rw [List.filter_eq_nil_iff]
  intro a ha hpa
  rcases List.mem_filter.1 ha with ⟨hal, hka⟩
  have hae : a = ex := uniqueP_of_countP_le_one hcount hal hpa hmem hpex
  rw [hae, hkex] at hka
  exact Bool.noConfusion hka

/-! ### Reduction lemmas for the actions -/

/-- Once authorization, enrollment resolution and the scope guards have passed,
assignMahasiswaPrivilege is the deleteMany phase followed by the create (which
either succeeds, appending the new row, or throws into the catch block with the
deletions kept). -/
theorem assignMahasiswaPrivilege_reduces (db : DB) (session : Option String)
    (classId targetUserId privilegeType : String)
    (options : Option AssignOptions) (newId : String) (createOk : Bool)
    (actorId : String)
    (hver : verifyKetuaUmum db session classId = Except.ok actorId)
    (enrollmentId : String)
    (henr : getEnrollmentId db targetUserId classId = some enrollmentId)
    (hg : (privilegeType == "ketua_kelompok" &&
      !truthyStr (optGroupId options)) = false)
    (hf : (privilegeType == "ketua_fan_ilmu" &&
      !truthyStr (optFanIlmuId options)) = false) :
    assignMahasiswaPrivilege db session classId targetUserId privilegeType
        options newId createOk =
      if createOk then
        ({ db with mahasiswaPrivileges :=
            (assignDeleteMany db.mahasiswaPrivileges classId privilegeType
              options ++
              [{ id := newId, enrollmentId := enrollmentId, classId := classId,
                 privilegeType := toMahasiswaPrismaEnum privilegeType,
                 groupId := optGroupId options,
                 fanIlmuId := optFanIlmuId options,
                 assignedBy := actorId }]) },
         PrivilegeFormState.success "Privilege berhasil diberikan")
      else
        ({ db with mahasiswaPrivileges :=
            (assignDeleteMany db.mahasiswaPrivileges classId privilegeType
              options) },
         PrivilegeFormState.failure ["Gagal memberikan privilege"]) := by
  simp only [assignMahasiswaPrivilege, hver, henr, hg, hf]
  simp

/-! ### C10 -/

/-- C10: stringToUserType maps every string that is not (case-insensitively)
"admin", "dosen", or "mahasiswa" to the Student role MAHASISWA silently — an
unrecognized role string is never rejected, it defaults to the
least-privileged global role. -/
theorem stringToUserType_defaults_to_mahasiswa (s : String)
    (h1 : toLowerAscii s ≠ "admin") (h2 : toLowerAscii s ≠ "dosen")
    (h3 : toLowerAscii s ≠ "mahasiswa") :
    stringToUserType s = "MAHASISWA" := by
  unfold stringToUserType
  simp only [beq_iff_eq]
  rw [if_neg h1, if_neg h2, if_neg h3]

/-- Witness for C10 at the concrete corrupted role string "Pengurus". -/
theorem stringToUserType_defaults_to_mahasiswa_witness :
    (toLowerAscii "Pengurus" ≠ "admin" ∧ toLowerAscii "Pengurus" ≠ "dosen" ∧
      toLowerAscii "Pengurus" ≠ "mahasiswa") ∧
    stringToUserType "Pengurus" = "MAHASISWA" :=
  ⟨by decide, stringToUserType_defaults_to_mahasiswa "Pengurus" (by decide)
    (by decide) (by decide)⟩

/-! ### C6 -/

/-- C6: if a user's enrollment in the class has a status other than ACTIVE (or
no enrollment row exists at all), hasMahasiswaPrivilege answers false and
getMahasiswaPrivilegesForClass answers the empty list, for every role kind,
even when StudentPrivilege rows for that enrollment are still stored (no
hypothesis constrains db.mahasiswaPrivileges). -/
theorem enrollment_gating (db : DB) (userId classId privilegeType : String)
    (h : ∀ e ∈ db.enrollments,
      ¬(e.userId = userId ∧ e.classId = classId ∧ e.status = "ACTIVE")) :
    hasMahasiswaPrivilege db userId classId privilegeType = false ∧
    getMahasiswaPrivilegesForClass db userId classId = [] := by
  have hfind : findActiveEnrollment db userId classId = none := by
    rw [findActiveEnrollment, List.find?_eq_none]
    intro e he
    simp only [Bool.and_eq_true, beq_iff_eq, not_and]
    intro h1 h2
    exact h e he ⟨h1.1, h1.2, h2⟩
  constructor
  · simp [hasMahasiswaPrivilege, hfind]
  · simp [getMahasiswaPrivilegesForClass, hfind]

/-- Witness database for C6: an INACTIVE enrollment whose stale SEKRETARIS
privilege row is still stored. -/
def gatingDb : DB :=
  { enrollments :=
      [{ id := "e1", userId := "u1", classId := "c1", status := "INACTIVE" }],
    mahasiswaPrivileges :=
      [{ id := "p1", enrollmentId := "e1", classId := "c1",
         privilegeType := "SEKRETARIS", groupId := none, fanIlmuId := none,
         assignedBy := "adm" }],
    dosenPrivileges := [], groups := [], fanIlmus := [] }

/-- Witness for C6: the stale row exists yet both queries deny. -/
theorem enrollment_gating_witness :
    (∀ e ∈ gatingDb.enrollments,
      ¬(e.userId = "u1" ∧ e.classId = "c1" ∧ e.status = "ACTIVE")) ∧
    (gatingDb.mahasiswaPrivileges ≠ []) ∧
    (hasMahasiswaPrivilege gatingDb "u1" "c1" "sekretaris" = false ∧
      getMahasiswaPrivilegesForClass gatingDb "u1" "c1" = []) :=
  ⟨by decide, by decide,
    enrollment_gating gatingDb "u1" "c1" "sekretaris" (by decide)⟩

/-! ### C7 -/

/-- C7: assignDosenPrivilege checks the (user, class, roleKind) triple: when a
matching InstructorPrivilege row exists the call fails with the DuplicateGrant
message and touches nothing; otherwise exactly one new row is appended, stamped
with assignedBy equal to the acting admin's id. -/
theorem assignDosenPrivilege_spec (db : DB) (session : Option SessionUser)
    (userId classId privilegeType : String) (createOk : Bool)
    (actor : SessionUser)
    (hrole : requireRole session ["admin"] = Except.ok actor) :
    ((∃ r ∈ db.dosenPrivileges,
        (r.userId == userId && r.classId == classId &&
          r.privilegeType == toDosenPrismaEnum privilegeType) = true) →
      assignDosenPrivilege db session userId classId privilegeType createOk =
        (db, PrivilegeFormState.failure ["Privilege sudah diberikan"])) ∧
    ((∀ r ∈ db.dosenPrivileges,
        (r.userId == userId && r.classId == classId &&
          r.privilegeType == toDosenPrismaEnum privilegeType) = false) →
      assignDosenPrivilege db session userId classId privilegeType true =
        ({ db with dosenPrivileges := db.dosenPrivileges ++
            [{ userId := userId, classId := classId,
               privilegeType := toDosenPrismaEnum privilegeType,
               assignedBy := actor.id }] },
         PrivilegeFormState.success "Privilege berhasil diberikan")) := by
  constructor
  · intro hex
    have hsome : (db.dosenPrivileges.find? fun r =>
        r.userId == userId && r.classId == classId &&
          r.privilegeType == toDosenPrismaEnum privilegeType).isSome = true := by
      rw [List.find?_isSome]
      rcases hex with ⟨r, hr, hpr⟩
      exact ⟨r, hr, hpr⟩
    rcases Option.isSome_iff_exists.1 hsome with ⟨r₀, hr₀⟩
    simp [assignDosenPrivilege, hrole, hr₀]
  · intro hnone
    have hfind : (db.dosenPrivileges.find? fun r =>
        r.userId == userId && r.classId == classId &&
          r.privilegeType == toDosenPrismaEnum privilegeType) = none := by
      rw [List.find?_eq_none]
      intro r hr
      simp [hnone r hr]
    simp [assignDosenPrivilege, hrole, hfind]

/-- Witness database for C7: the admin "adm", one existing grant for
(u1, c1, WALI_KELAS). -/
def dosenDb : DB :=
  { enrollments := [], mahasiswaPrivileges := [],
    dosenPrivileges :=
      [{ userId := "u1", classId := "c1", privilegeType := "WALI_KELAS",
         assignedBy := "adm" }],
    groups := [], fanIlmus := [] }

/-- Witness for C7: the duplicate triple is refused without mutation and a
fresh triple is inserted stamped with the admin's id. -/
theorem assignDosenPrivilege_spec_witness :
    (assignDosenPrivilege dosenDb
        (some { id := "adm", userType := "admin" }) "u1" "c1" "wali_kelas" true =
      (dosenDb, PrivilegeFormState.failure ["Privilege sudah diberikan"])) ∧
    (assignDosenPrivilege dosenDb
        (some { id := "adm", userType := "admin" }) "u1" "c1" "pengurus_hafalan"
        true =
      ({ dosenDb with dosenPrivileges := dosenDb.dosenPrivileges ++
          [{ userId := "u1", classId := "c1",
             privilegeType := "PENGURUS_HAFALAN", assignedBy := "adm" }] },
       PrivilegeFormState.success "Privilege berhasil diberikan")) := by
  constructor
  · exact (assignDosenPrivilege_spec dosenDb
      (some { id := "adm", userType := "admin" }) "u1" "c1" "wali_kelas" true
      { id := "adm", userType := "admin" } rfl).1 (by decide)
  · exact (assignDosenPrivilege_spec dosenDb
      (some { id := "adm", userType := "admin" }) "u1" "c1" "pengurus_hafalan"
      true { id := "adm", userType := "admin" } rfl).2 (by decide)

/-! ### C4 -/

/-- Database for the C4 counterexample: "u0" is Ketua Umum of class "c1"
(enrollment "e0"), target "u1" has active enrollment "e1". -/
def kuBypassDb : DB :=
  { enrollments :=
      [{ id := "e0", userId := "u0", classId := "c1", status := "ACTIVE" },
       { id := "e1", userId := "u1", classId := "c1", status := "ACTIVE" }],
    mahasiswaPrivileges :=
      [{ id := "p0", enrollmentId := "e0", classId := "c1",
         privilegeType := "KETUA_UMUM", groupId := none, fanIlmuId := none,
         assignedBy := "adm" }],
    dosenPrivileges := [], groups := [], fanIlmus := [] }

/-- C4 counterexample: assignMahasiswaPrivilege called with the GeneralLeader
role kind does NOT refuse — it reports success and inserts a second KETUA_UMUM
row, so the claim that both paths refuse with ProtectedGrant and perform no
mutation is false at this input. -/
theorem assign_ketua_umum_not_refused_cex :
    (assignMahasiswaPrivilege kuBypassDb (some "u0") "c1" "u1" "ketua_umum"
        none "p9" true).2
      = PrivilegeFormState.success "Privilege berhasil diberikan" ∧
    (assignMahasiswaPrivilege kuBypassDb (some "u0") "c1" "u1" "ketua_umum"
        none "p9" true).1.mahasiswaPrivileges
      ≠ kuBypassDb.mahasiswaPrivileges ∧
    roleCount (assignMahasiswaPrivilege kuBypassDb (some "u0") "c1" "u1"
        "ketua_umum" none "p9" true).1 "c1" "KETUA_UMUM" = 2 := by
  decide

/-- C4 (amended): removeMahasiswaPrivilege with the GeneralLeader role kind
always refuses (ProtectedGrant message, or an authorization failure) and never
mutates the store; assignMahasiswaPrivilege, however, has no runtime guard —
the GeneralLeader kind is excluded only by the static parameter type, and a
call that passes it reaches the create and inserts a KETUA_UMUM row. -/
theorem general_leader_protected_on_remove_only (db : DB)
    (session : Option String) (classId enrollmentId targetUserId newId : String)
    (actorId : String)
    (hver : verifyKetuaUmum db session classId = Except.ok actorId)
    (eid : String)
    (henr : getEnrollmentId db targetUserId classId = some eid) :
    (removeMahasiswaPrivilege db session classId enrollmentId "ketua_umum").1
        = db ∧
    (∀ m, (removeMahasiswaPrivilege db session classId enrollmentId
        "ketua_umum").2 ≠ PrivilegeFormState.success m) ∧
    assignMahasiswaPrivilege db session classId targetUserId "ketua_umum" none
        newId true =
      ({ db with mahasiswaPrivileges := db.mahasiswaPrivileges ++
          [{ id := newId, enrollmentId := eid, classId := classId,
             privilegeType := "KETUA_UMUM", groupId := none, fanIlmuId := none,
             assignedBy := actorId }] },
       PrivilegeFormState.success "Privilege berhasil diberikan") := by
  refine ⟨?_, ?_, ?_⟩
  · simp [removeMahasiswaPrivilege, hver]
  · intro m
    simp [removeMahasiswaPrivilege, hver]
  · rw [assignMahasiswaPrivilege_reduces db session classId targetUserId
      "ketua_umum" none newId true actorId hver eid henr (by decide) (by decide)]
    have hdel : assignDeleteMany db.mahasiswaPrivileges classId "ketua_umum"
        none = db.mahasiswaPrivileges := by
      simp [assignDeleteMany, truthyStr, optGroupId, optFanIlmuId]
    simp [hdel]
    refine ⟨by decide, rfl, rfl⟩

/-- Witness for C4 (amended) on the concrete kuBypassDb. -/
theorem general_leader_protected_on_remove_only_witness :
    ((removeMahasiswaPrivilege kuBypassDb (some "u0") "c1" "e1"
        "ketua_umum").1 = kuBypassDb ∧
      (∀ m, (removeMahasiswaPrivilege kuBypassDb (some "u0") "c1" "e1"
        "ketua_umum").2 ≠ PrivilegeFormState.success m) ∧
      assignMahasiswaPrivilege kuBypassDb (some "u0") "c1" "u1" "ketua_umum"
          none "p9" true =
        ({ kuBypassDb with mahasiswaPrivileges :=
            kuBypassDb.mahasiswaPrivileges ++
            [{ id := "p9", enrollmentId := "e1", classId := "c1",
               privilegeType := "KETUA_UMUM", groupId := none,
               fanIlmuId := none, assignedBy := "u0" }] },
         PrivilegeFormState.success "Privilege berhasil diberikan")) :=
  general_leader_protected_on_remove_only kuBypassDb (some "u0") "c1" "e1"
    "u1" "p9" "u0" rfl "e1" rfl

/-! ### C5 -/

/-- Database for the C5 counterexample: "u0" is Ketua Umum of "c1", target "u1"
actively enrolled; the only Group "g9" belongs to the DIFFERENT class "c2". -/
def scopeDb : DB :=
  { enrollments :=
      [{ id := "e0", userId := "u0", classId := "c1", status := "ACTIVE" },
       { id := "e1", userId := "u1", classId := "c1", status := "ACTIVE" }],
    mahasiswaPrivileges :=
      [{ id := "p0", enrollmentId := "e0", classId := "c1",
         privilegeType := "KETUA_UMUM", groupId := none, fanIlmuId := none,
         assignedBy := "adm" }],
    dosenPrivileges := [],
    groups := [{ id := "g9", classId := "c2" }],
    fanIlmus := [] }

/-- C5 counterexample: the referenced Group "g9" does not belong to the target
class "c1", yet assignMahasiswaPrivilege with roleKind GroupLeader succeeds and
mutates — the claimed MissingScope failure for a foreign group does not exist
in the code. -/
theorem group_scope_not_validated_cex :
    (∀ g ∈ scopeDb.groups, ¬(g.id = "g9" ∧ g.classId = "c1")) ∧
    (assignMahasiswaPrivilege scopeDb (some "u0") "c1" "u1" "ketua_kelompok"
        (some { groupId := some "g9", fanIlmuId := none }) "p9" true).2
      = PrivilegeFormState.success "Privilege berhasil diberikan" ∧
    (assignMahasiswaPrivilege scopeDb (some "u0") "c1" "u1" "ketua_kelompok"
        (some { groupId := some "g9", fanIlmuId := none }) "p9" true).1
      ≠ scopeDb := by
  decide

/-- C5 (amended): the scope validation is a presence check only.  GroupLeader
fails with the MissingScope message (and no mutation) exactly when the groupId
argument is absent or empty, and likewise StudyAreaLeader with fanIlmuId; when
the argument is a non-empty string the call proceeds to success with no check
that the referenced Group/StudyArea belongs to the target class (the groups
and fanIlmus tables are never consulted). -/
theorem scope_guard_presence_only (db : DB) (session : Option String)
    (classId targetUserId newId : String) (actorId : String)
    (hver : verifyKetuaUmum db session classId = Except.ok actorId)
    (eid : String)
    (henr : getEnrollmentId db targetUserId classId = some eid)
    (opts : Option AssignOptions) :
    (truthyStr (optGroupId opts) = false →
      assignMahasiswaPrivilege db session classId targetUserId "ketua_kelompok"
          opts newId true =
        (db, PrivilegeFormState.failure
          ["Kelompok harus dipilih untuk Ketua Kelompok"])) ∧
    (truthyStr (optFanIlmuId opts) = false →
      assignMahasiswaPrivilege db session classId targetUserId "ketua_fan_ilmu"
          opts newId true =
        (db, PrivilegeFormState.failure
          ["Fan Ilmu harus dipilih untuk Ketua Fan Ilmu"])) ∧
    (truthyStr (optGroupId opts) = true →
      (assignMahasiswaPrivilege db session classId targetUserId
          "ketua_kelompok" opts newId true).2
        = PrivilegeFormState.success "Privilege berhasil diberikan") ∧
    (truthyStr (optFanIlmuId opts) = true →
      (assignMahasiswaPrivilege db session classId targetUserId
          "ketua_fan_ilmu" opts newId true).2
        = PrivilegeFormState.success "Privilege berhasil diberikan") := by
  refine ⟨?_, ?_, ?_, ?_⟩
  · intro h
    simp [assignMahasiswaPrivilege, hver, henr, h]
  · intro h
    simp [assignMahasiswaPrivilege, hver, henr, h]
  · intro h
    rw [assignMahasiswaPrivilege_reduces db session classId targetUserId
      "ketua_kelompok" opts newId true actorId hver eid henr
      (by simp [h])
      (by simp [(by decide : ("ketua_kelompok" == "ketua_fan_ilmu") = false)])]
    simp
  · intro h
    rw [assignMahasiswaPrivilege_reduces db session classId targetUserId
      "ketua_fan_ilmu" opts newId true actorId hver eid henr
      (by simp [(by decide : ("ketua_fan_ilmu" == "ketua_kelompok") = false)])
      (by simp [h])]
    simp

/-- Witness for C5 (amended) on scopeDb with an absent and then a present
(foreign) group reference. -/
theorem scope_guard_presence_only_witness :
    (truthyStr (optGroupId none) = false →
      assignMahasiswaPrivilege scopeDb (some "u0") "c1" "u1" "ketua_kelompok"
          none "p9" true =
        (scopeDb, PrivilegeFormState.failure
          ["Kelompok harus dipilih untuk Ketua Kelompok"])) ∧
    (truthyStr (optFanIlmuId none) = false →
      assignMahasiswaPrivilege scopeDb (some "u0") "c1" "u1" "ketua_fan_ilmu"
          none "p9" true =
        (scopeDb, PrivilegeFormState.failure
          ["Fan Ilmu harus dipilih untuk Ketua Fan Ilmu"])) ∧
    (truthyStr (optGroupId none) = true →
      (assignMahasiswaPrivilege scopeDb (some "u0") "c1" "u1" "ketua_kelompok"
          none "p9" true).2
        = PrivilegeFormState.success "Privilege berhasil diberikan") ∧
    (truthyStr (optFanIlmuId none) = true →
      (assignMahasiswaPrivilege scopeDb (some "u0") "c1" "u1" "ketua_fan_ilmu"
          none "p9" true).2
        = PrivilegeFormState.success "Privilege berhasil diberikan") :=
  scope_guard_presence_only scopeDb (some "u0") "c1" "u1" "p9" "u0" rfl
    "e1" rfl none

/-! ### C8 -/

/-- Database for the C8 counterexample: "u0" is Ketua Umum of "c1"; no
privilege row exists for enrollment "e9". -/
def removeCexDb : DB :=
  { enrollments :=
      [{ id := "e0", userId := "u0", classId := "c1", status := "ACTIVE" }],
    mahasiswaPrivileges :=
      [{ id := "p0", enrollmentId := "e0", classId := "c1",
         privilegeType := "KETUA_UMUM", groupId := none, fanIlmuId := none,
         assignedBy := "adm" }],
    dosenPrivileges := [], groups := [], fanIlmus := [] }

/-- C8 counterexample: with roleKind GeneralLeader and no matching grant row,
removeMahasiswaPrivilege returns an error instead of the claimed no-op
success, so "for every roleKind removal of a non-existent grant succeeds" is
false at this input (the store is still left unchanged). -/
theorem remove_ketua_umum_not_noop_success_cex :
    (∀ r ∈ removeCexDb.mahasiswaPrivileges,
      ¬(r.enrollmentId = "e9" ∧ r.classId = "c1" ∧
        r.privilegeType = toMahasiswaPrismaEnum "ketua_umum")) ∧
    removeMahasiswaPrivilege removeCexDb (some "u0") "c1" "e9" "ketua_umum" =
      (removeCexDb, PrivilegeFormState.failure
        ["Tidak dapat menghapus privilege Ketua Umum"]) := by
  decide

/-- C8 (amended): removal of a non-existent grant is a no-op success for
removeDosenPrivilege with every role kind, and for removeMahasiswaPrivilege
with every role kind other than GeneralLeader; a GeneralLeader removal is
instead always refused with the ProtectedGrant message, still leaving the
store unchanged. -/
theorem remove_nonexistent_idempotent (db : DB)
    (dsession : Option SessionUser) (actor : SessionUser)
    (hrole : requireRole dsession ["admin"] = Except.ok actor)
    (userId classId dtype : String)
    (hd : ∀ r ∈ db.dosenPrivileges,
      ¬(r.userId = userId ∧ r.classId = classId ∧
        r.privilegeType = toDosenPrismaEnum dtype))
    (msession : Option String) (uid : String)
    (hver : verifyKetuaUmum db msession classId = Except.ok uid)
    (enrollmentId mtype : String) (hmt : mtype ≠ "ketua_umum")
    (hm : ∀ r ∈ db.mahasiswaPrivileges,
      ¬(r.enrollmentId = enrollmentId ∧ r.classId = classId ∧
        r.privilegeType = toMahasiswaPrismaEnum mtype)) :
    removeDosenPrivilege db dsession userId classId dtype =
      (db, PrivilegeFormState.success "Privilege berhasil dihapus") ∧
    removeMahasiswaPrivilege db msession classId enrollmentId mtype =
      (db, PrivilegeFormState.success "Privilege berhasil dihapus") ∧
    removeMahasiswaPrivilege db msession classId enrollmentId "ketua_umum" =
      (db, PrivilegeFormState.failure
        ["Tidak dapat menghapus privilege Ketua Umum"]) := by
  refine ⟨?_, ?_, ?_⟩
  · have hkeep : db.dosenPrivileges.filter (fun r =>
        !(r.userId == userId && r.classId == classId &&
          r.privilegeType == toDosenPrismaEnum dtype)) = db.dosenPrivileges := by
      rw [List.filter_eq_self]
      intro r hr
      rw [Bool.not_eq_true', Bool.eq_false_iff]
      intro habc
      simp only [Bool.and_eq_true, beq_iff_eq] at habc
      exact hd r hr ⟨habc.1.1, habc.1.2, habc.2⟩
    have hstep : removeDosenPrivilege db dsession userId classId dtype =
        ({ db with dosenPrivileges := db.dosenPrivileges.filter fun r =>
            !(r.userId == userId && r.classId == classId &&
              r.privilegeType == toDosenPrismaEnum dtype) },
         PrivilegeFormState.success "Privilege berhasil dihapus") := by
      simp only [removeDosenPrivilege, hrole]
    rw [hstep, hkeep]
  · have hne : (mtype == "ketua_umum") = false := by
      simp [hmt]
    have hkeep : db.mahasiswaPrivileges.filter (fun r =>
        !(r.enrollmentId == enrollmentId && r.classId == classId &&
          r.privilegeType == toMahasiswaPrismaEnum mtype))
        = db.mahasiswaPrivileges := by
      rw [List.filter_eq_self]
      intro r hr
      rw [Bool.not_eq_true', Bool.eq_false_iff]
      intro habc
      simp only [Bool.and_eq_true, beq_iff_eq] at habc
      exact hm r hr ⟨habc.1.1, habc.1.2, habc.2⟩
    have hstep : removeMahasiswaPrivilege db msession classId enrollmentId
        mtype =
        ({ db with mahasiswaPrivileges := (db.mahasiswaPrivileges.filter
            fun r =>
            !(r.enrollmentId == enrollmentId && r.classId == classId &&
              r.privilegeType == toMahasiswaPrismaEnum mtype)) },
         PrivilegeFormState.success "Privilege berhasil dihapus") := by
      simp only [removeMahasiswaPrivilege, hver, hne, Bool.false_eq_true,
        if_false]
    rw [hstep, hkeep]
  · simp [removeMahasiswaPrivilege, hver]

/-- Witness for C8 (amended) on removeCexDb with an admin session for the
instructor path and the Ketua Umum session for the student path. -/
theorem remove_nonexistent_idempotent_witness :
    removeDosenPrivilege removeCexDb
        (some { id := "adm", userType := "admin" }) "u7" "c1" "wali_kelas" =
      (removeCexDb, PrivilegeFormState.success "Privilege berhasil dihapus") ∧
    removeMahasiswaPrivilege removeCexDb (some "u0") "c1" "e9" "sekretaris" =
      (removeCexDb, PrivilegeFormState.success "Privilege berhasil dihapus") ∧
    removeMahasiswaPrivilege removeCexDb (some "u0") "c1" "e9" "ketua_umum" =
      (removeCexDb, PrivilegeFormState.failure
        ["Tidak dapat menghapus privilege Ketua Umum"]) :=
  remove_nonexistent_idempotent removeCexDb
    (some { id := "adm", userType := "admin" })
    { id := "adm", userType := "admin" } rfl "u7" "c1" "wali_kelas"
    (by decide) (some "u0") "u0" rfl "e9" "sekretaris" (by decide) (by decide)

/-! ### C9 -/

/-- Database for the C9 counterexample (same shape as removeCexDb, own copy). -/
def unknownKindDb : DB :=
  { enrollments :=
      [{ id := "e0", userId := "u0", classId := "c1", status := "ACTIVE" }],
    mahasiswaPrivileges :=
      [{ id := "p0", enrollmentId := "e0", classId := "c1",
         privilegeType := "KETUA_UMUM", groupId := none, fanIlmuId := none,
         assignedBy := "adm" }],
    dosenPrivileges := [], groups := [], fanIlmus := [] }

/-- C9 counterexample: "pengurus" is outside every closed role-kind
enumeration, yet the conversion helpers blindly uppercase it and
removeMahasiswaPrivilege / removeDosenPrivilege pass it to the store and
report success — no validation error is raised. -/
theorem unknown_role_kind_accepted_cex :
    ((["ketua_umum", "ketua_kelompok", "kamtib", "ketua_fan_ilmu",
        "sekretaris", "bendahara"] : List String).contains "pengurus"
      = false) ∧
    ((["dosen_pendamping", "wali_kelas", "pengurus_hafalan",
        "pengurus_capaian_materi", "pengurus_kelas"] : List String).contains
        "pengurus" = false) ∧
    toMahasiswaPrismaEnum "pengurus" = "PENGURUS" ∧
    toDosenPrismaEnum "pengurus" = "PENGURUS" ∧
    removeMahasiswaPrivilege unknownKindDb (some "u0") "c1" "e0" "pengurus" =
      (unknownKindDb,
        PrivilegeFormState.success "Privilege berhasil dihapus") ∧
    removeDosenPrivilege unknownKindDb
        (some { id := "adm", userType := "admin" }) "u7" "c1" "pengurus" =
      (unknownKindDb,
        PrivilegeFormState.success "Privilege berhasil dihapus") := by
  decide

/-- C9 (amended): the mutation operations perform no role-kind validation at
all.  For EVERY string, assignMahasiswaPrivilege (guards satisfied by supplying
both scope arguments) succeeds and stores the blindly uppercased value, and
removeMahasiswaPrivilege reports success for every string except the special
"ketua_umum" guard — unknown values are never rejected as a validation
error. -/
theorem no_role_kind_validation (db : DB) (session : Option String)
    (classId targetUserId t : String) (opts : Option AssignOptions)
    (newId : String) (actorId : String)
    (hver : verifyKetuaUmum db session classId = Except.ok actorId)
    (eid : String)
    (henr : getEnrollmentId db targetUserId classId = some eid)
    (hg : truthyStr (optGroupId opts) = true)
    (hf : truthyStr (optFanIlmuId opts) = true)
    (enrollmentId : String) (hmt : t ≠ "ketua_umum") :
    (assignMahasiswaPrivilege db session classId targetUserId t opts newId
        true).2
      = PrivilegeFormState.success "Privilege berhasil diberikan" ∧
    (assignMahasiswaPrivilege db session classId targetUserId t opts newId
        true).1.mahasiswaPrivileges
      = assignDeleteMany db.mahasiswaPrivileges classId t opts ++
        [{ id := newId, enrollmentId := eid, classId := classId,
           privilegeType := toMahasiswaPrismaEnum t,
           groupId := optGroupId opts, fanIlmuId := optFanIlmuId opts,
           assignedBy := actorId }] ∧
    (removeMahasiswaPrivilege db session classId enrollmentId t).2
      = PrivilegeFormState.success "Privilege berhasil dihapus" := by
  have hne : (t == "ketua_umum") = false := by simp [hmt]
  rw [assignMahasiswaPrivilege_reduces db session classId targetUserId t opts
    newId true actorId hver eid henr (by simp [hg]) (by simp [hf])]
  refine ⟨by simp, by simp, ?_⟩
  simp [removeMahasiswaPrivilege, hver, hne]

/-- Witness for C9 (amended) at the unknown role kind "pengurus". -/
theorem no_role_kind_validation_witness :
    (assignMahasiswaPrivilege unknownKindDb (some "u0") "c1" "u0" "pengurus"
        (some { groupId := some "g1", fanIlmuId := some "f1" }) "p9" true).2
      = PrivilegeFormState.success "Privilege berhasil diberikan" ∧
    (assignMahasiswaPrivilege unknownKindDb (some "u0") "c1" "u0" "pengurus"
        (some { groupId := some "g1", fanIlmuId := some "f1" }) "p9"
        true).1.mahasiswaPrivileges
      = assignDeleteMany unknownKindDb.mahasiswaPrivileges "c1" "pengurus"
          (some { groupId := some "g1", fanIlmuId := some "f1" }) ++
        [{ id := "p9", enrollmentId := "e0", classId := "c1",
           privilegeType := toMahasiswaPrismaEnum "pengurus",
           groupId := optGroupId
             (some { groupId := some "g1", fanIlmuId := some "f1" }),
           fanIlmuId := optFanIlmuId
             (some { groupId := some "g1", fanIlmuId := some "f1" }),
           assignedBy := "u0" }] ∧
    (removeMahasiswaPrivilege unknownKindDb (some "u0") "c1" "e0"
        "pengurus").2
      = PrivilegeFormState.success "Privilege berhasil dihapus" :=
  no_role_kind_validation unknownKindDb (some "u0") "c1" "u0" "pengurus"
    (some { groupId := some "g1", fanIlmuId := some "f1" }) "p9" "u0" rfl
    "e0" rfl (by decide) (by decide) "e0" (by decide)

/-! ### C1 -/

/-- The query predicate for a class's General-Leader rows, exactly as issued by
assignKetuaUmum, getKetuaUmum and the roleCount measurement. -/
def kuPred (classId : String) : MahasiswaPrivilegeRow → Bool :=
  fun p => p.classId == classId && p.privilegeType == "KETUA_UMUM"

/-- roleCount for KETUA_UMUM as a filter length. -/
theorem roleCount_ku_eq_filter_length (db : DB) (classId : String) :
    roleCount db classId "KETUA_UMUM"
      = (db.mahasiswaPrivileges.filter (kuPred classId)).length := by
  rw [roleCount, roleCountRows, List.countP_eq_length_filter]
  rfl

/-- Database for the C1 counterexample and witness: class "c1" has exactly one
General Leader ("u0" via enrollment "e0"); "u1" is the actively-enrolled
replacement target. -/
def atomDb : DB :=
  { enrollments :=
      [{ id := "e0", userId := "u0", classId := "c1", status := "ACTIVE" },
       { id := "e1", userId := "u1", classId := "c1", status := "ACTIVE" }],
    mahasiswaPrivileges :=
      [{ id := "p0", enrollmentId := "e0", classId := "c1",
         privilegeType := "KETUA_UMUM", groupId := none, fanIlmuId := none,
         assignedBy := "adm" }],
    dosenPrivileges := [], groups := [], fanIlmus := [] }

/-- C1 counterexample: class "c1" starts with exactly one General Leader; when
the create fails after the delete, assignKetuaUmum reports failure with the
class left with ZERO General-Leader rows — the deleted grant is not restored,
refuting the all-or-nothing claim at this input. -/
theorem assignKetuaUmum_mid_failure_cex :
    roleCount atomDb "c1" "KETUA_UMUM" = 1 ∧
    (assignKetuaUmum atomDb (some { id := "adm", userType := "admin" }) "u1"
        "c1" "p9" false).2
      = PrivilegeFormState.failure ["Gagal menunjuk Ketua Umum"] ∧
    roleCount (assignKetuaUmum atomDb
        (some { id := "adm", userType := "admin" }) "u1" "c1" "p9" false).1
      "c1" "KETUA_UMUM" = 0 := by
  decide

/-- C1 (amended): the delete of the existing General-Leader grant and the
insert of the new one are two separate store calls with no transaction.  When
the insert succeeds the class ends with exactly one holder, but when the insert
fails after the delete the prior state is NOT restored: the call returns the
generic failure and the class is left with zero General-Leader rows. -/
theorem assignKetuaUmum_not_atomic (db : DB) (session : Option SessionUser)
    (actor : SessionUser)
    (hrole : requireRole session ["admin"] = Except.ok actor)
    (userId classId newId : String) (e : EnrollmentRow)
    (henr : findActiveEnrollment db userId classId = some e)
    (hone : roleCount db classId "KETUA_UMUM" = 1) :
    (assignKetuaUmum db session userId classId newId false).2
      = PrivilegeFormState.failure ["Gagal menunjuk Ketua Umum"] ∧
    roleCount (assignKetuaUmum db session userId classId newId false).1
      classId "KETUA_UMUM" = 0 ∧
    roleCount (assignKetuaUmum db session userId classId newId true).1
      classId "KETUA_UMUM" = 1 := by
  have hone' : db.mahasiswaPrivileges.countP (kuPred classId) = 1 := hone
  have hpos : 0 < db.mahasiswaPrivileges.countP (kuPred classId) := by
    rw [hone']
    exact Nat.zero_lt_one
  rcases List.countP_pos_iff.1 hpos with ⟨a, ha, hpa⟩
  have hsome : (db.mahasiswaPrivileges.find? (kuPred classId)).isSome = true :=
    List.find?_isSome.2 ⟨a, ha, hpa⟩
  rcases Option.isSome_iff_exists.1 hsome with ⟨ex, hfind⟩
  have hexmem : ex ∈ db.mahasiswaPrivileges := List.mem_of_find?_eq_some hfind
  have hexP : kuPred classId ex = true := List.find?_some hfind
  have hle : db.mahasiswaPrivileges.countP (kuPred classId) ≤ 1 :=
    le_of_eq hone'
  have hnil : ((db.mahasiswaPrivileges.filter fun p =>
      !(p.id == ex.id)).filter (kuPred classId)) = [] :=
    filter_filter_eq_nil_of_unique hexmem hexP hle (by simp)
  have hfind' : db.mahasiswaPrivileges.find? (fun p =>
      p.classId == classId && p.privilegeType == "KETUA_UMUM") = some ex :=
    hfind
  have hstep_false : assignKetuaUmum db session userId classId newId false =
      ({ db with mahasiswaPrivileges := (db.mahasiswaPrivileges.filter
          fun p => !(p.id == ex.id)) },
       PrivilegeFormState.failure ["Gagal menunjuk Ketua Umum"]) := by
    simp only [assignKetuaUmum, hrole, henr]
    simp only [hfind', Bool.false_eq_true, if_false]
  have hstep_true : assignKetuaUmum db session userId classId newId true =
      ({ db with mahasiswaPrivileges := ((db.mahasiswaPrivileges.filter
          fun p => !(p.id == ex.id)) ++
          [{ id := newId, enrollmentId := e.id, classId := classId,
             privilegeType := "KETUA_UMUM", groupId := none, fanIlmuId := none,
             assignedBy := actor.id }]) },
       PrivilegeFormState.success "Ketua Umum berhasil ditunjuk") := by
    simp only [assignKetuaUmum, hrole, henr]
    simp only [hfind', eq_self_iff_true, if_true]
  refine ⟨?_, ?_, ?_⟩
  · rw [hstep_false]
  · rw [hstep_false, roleCount_ku_eq_filter_length]
    simp only [hnil]
    rfl
  · rw [hstep_true, roleCount_ku_eq_filter_length]
    simp only [List.filter_append, hnil]
    simp [kuPred]

/-- Witness for C1 (amended) on atomDb. -/
theorem assignKetuaUmum_not_atomic_witness :
    ((assignKetuaUmum atomDb (some { id := "adm", userType := "admin" }) "u1"
        "c1" "p9" false).2
      = PrivilegeFormState.failure ["Gagal menunjuk Ketua Umum"] ∧
    roleCount (assignKetuaUmum atomDb
        (some { id := "adm", userType := "admin" }) "u1" "c1" "p9" false).1
      "c1" "KETUA_UMUM" = 0 ∧
    roleCount (assignKetuaUmum atomDb
        (some { id := "adm", userType := "admin" }) "u1" "c1" "p9" true).1
      "c1" "KETUA_UMUM" = 1) :=
  assignKetuaUmum_not_atomic atomDb (some { id := "adm", userType := "admin" })
    { id := "adm", userType := "admin" } rfl "u1" "c1" "p9"
    { id := "e1", userId := "u1", classId := "c1", status := "ACTIVE" } rfl
    (by decide)

/-! ### C2 -/

/-- findActiveEnrollment only reads the enrollments table. -/
theorem findActiveEnrollment_congr (db1 db2 : DB)
    (h : db1.enrollments = db2.enrollments) (u c : String) :
    findActiveEnrollment db1 u c = findActiveEnrollment db2 u c := by
  unfold findActiveEnrollment
  rw [h]

/-- A successful assignKetuaUmum leaves the enrollments untouched and leaves
the class with exactly the new grant as its one General-Leader row (provided
the class held at most one before). -/
theorem assignKetuaUmum_success_state (db : DB) (session : Option SessionUser)
    (actor : SessionUser)
    (hrole : requireRole session ["admin"] = Except.ok actor)
    (userId classId newId : String) (e : EnrollmentRow)
    (henr : findActiveEnrollment db userId classId = some e)
    (hle : roleCount db classId "KETUA_UMUM" ≤ 1) :
    (assignKetuaUmum db session userId classId newId true).1.enrollments
      = db.enrollments ∧
    (assignKetuaUmum db session userId classId newId
        true).1.mahasiswaPrivileges.filter (kuPred classId)
      = [{ id := newId, enrollmentId := e.id, classId := classId,
           privilegeType := "KETUA_UMUM", groupId := none, fanIlmuId := none,
           assignedBy := actor.id }] := by
  have hle' : db.mahasiswaPrivileges.countP (kuPred classId) ≤ 1 := hle
  cases hfind : db.mahasiswaPrivileges.find? (fun p =>
      p.classId == classId && p.privilegeType == "KETUA_UMUM") with
  | none =>
    have hstep : assignKetuaUmum db session userId classId newId true =
        ({ db with mahasiswaPrivileges := (db.mahasiswaPrivileges ++
            [{ id := newId, enrollmentId := e.id, classId := classId,
               privilegeType := "KETUA_UMUM", groupId := none,
               fanIlmuId := none, assignedBy := actor.id }]) },
         PrivilegeFormState.success "Ketua Umum berhasil ditunjuk") := by
      simp only [assignKetuaUmum, hrole, henr]
      simp only [hfind, eq_self_iff_true, if_true]
    rw [hstep]
    refine ⟨rfl, ?_⟩
    rw [List.filter_append]
    have h1 : db.mahasiswaPrivileges.filter (kuPred classId) = [] := by
      rw [List.filter_eq_nil_iff]
      intro a ha hpa
      exact (List.find?_eq_none.1 hfind) a ha hpa
    rw [h1]
    simp [kuPred]
  | some ex =>
    have hexmem : ex ∈ db.mahasiswaPrivileges :=
      List.mem_of_find?_eq_some hfind
    have hexP : kuPred classId ex = true := List.find?_some hfind
    have hstep : assignKetuaUmum db session userId classId newId true =
        ({ db with mahasiswaPrivileges := ((db.mahasiswaPrivileges.filter
            fun p => !(p.id == ex.id)) ++
            [{ id := newId, enrollmentId := e.id, classId := classId,
               privilegeType := "KETUA_UMUM", groupId := none,
               fanIlmuId := none, assignedBy := actor.id }]) },
         PrivilegeFormState.success "Ketua Umum berhasil ditunjuk") := by
      simp only [assignKetuaUmum, hrole, henr]
      simp only [hfind, eq_self_iff_true, if_true]
    rw [hstep]
    refine ⟨rfl, ?_⟩
    rw [List.filter_append,
      filter_filter_eq_nil_of_unique hexmem hexP hle' (by simp)]
    simp [kuPred]

/-- When a class's General-Leader rows consist of exactly one row, isKetuaUmum
answers by comparing that row's enrollment with the user's active one. -/
theorem isKetuaUmum_of_unique_row (db' : DB) (classId : String)
    (row : MahasiswaPrivilegeRow)
    (hku : db'.mahasiswaPrivileges.filter (kuPred classId) = [row])
    (u : String) (e : EnrollmentRow)
    (henr : findActiveEnrollment db' u classId = some e) :
    isKetuaUmum db' u classId = (row.enrollmentId == e.id) := by
  have hrowmem : row ∈ db'.mahasiswaPrivileges ∧ kuPred classId row = true := by
    have hm : row ∈ db'.mahasiswaPrivileges.filter (kuPred classId) := by
      rw [hku]
      exact List.mem_singleton_self row
    exact List.mem_filter.1 hm
  have hrowP := hrowmem.2
  simp only [kuPred, Bool.and_eq_true, beq_iff_eq] at hrowP
  have hq : toMahasiswaPrismaEnum "ketua_umum" = "KETUA_UMUM" := by decide
  simp only [isKetuaUmum, hasMahasiswaPrivilege, henr, hq]
  cases hcase : row.enrollmentId == e.id with
  | true =>
    rw [List.find?_isSome]
    exact ⟨row, hrowmem.1, by simp [hcase, hrowP.1, hrowP.2]⟩
  | false =>
    have hnone : db'.mahasiswaPrivileges.find? (fun p =>
        p.enrollmentId == e.id && p.classId == classId &&
          p.privilegeType == "KETUA_UMUM") = none := by
      rw [List.find?_eq_none]
      intro x hx hqx
      simp only [Bool.and_eq_true, beq_iff_eq] at hqx
      have hxku : kuPred classId x = true := by
        simp [kuPred, hqx.1.2, hqx.2]
      have hxmem : x ∈ db'.mahasiswaPrivileges.filter (kuPred classId) :=
        List.mem_filter.2 ⟨hx, hxku⟩
      rw [hku] at hxmem
      have hxrow : x = row := List.mem_singleton.1 hxmem
      rw [hxrow] at hqx
      simp [hqx.1.1] at hcase
    rw [hnone]
    rfl

/-- C2: replacing the General Leader.  After Admin assigns General Leader to
S1 in a class whose enrollments resolve S1 to e1 and S2 to e2 (distinct
enrollments, at most one prior General-Leader row), isKetuaUmum holds for S1;
after a subsequent assignment to S2, isKetuaUmum is false for S1, true for S2,
and exactly one KETUA_UMUM row exists for the class. -/
theorem general_leader_replacement (db : DB) (session : Option SessionUser)
    (actor : SessionUser)
    (hrole : requireRole session ["admin"] = Except.ok actor)
    (classId s1 s2 id1 id2 : String) (e1 e2 : EnrollmentRow)
    (he1 : findActiveEnrollment db s1 classId = some e1)
    (he2 : findActiveEnrollment db s2 classId = some e2)
    (hne : e1.id ≠ e2.id)
    (hinv : roleCount db classId "KETUA_UMUM" ≤ 1) :
    isKetuaUmum (assignKetuaUmum db session s1 classId id1 true).1 s1 classId
      = true ∧
    isKetuaUmum (assignKetuaUmum (assignKetuaUmum db session s1 classId id1
        true).1 session s2 classId id2 true).1 s1 classId = false ∧
    isKetuaUmum (assignKetuaUmum (assignKetuaUmum db session s1 classId id1
        true).1 session s2 classId id2 true).1 s2 classId = true ∧
    roleCount (assignKetuaUmum (assignKetuaUmum db session s1 classId id1
        true).1 session s2 classId id2 true).1 classId "KETUA_UMUM" = 1 := by
  obtain ⟨hE1, hKU1⟩ := assignKetuaUmum_success_state db session actor hrole
    s1 classId id1 e1 he1 hinv
  have he1' : findActiveEnrollment
      (assignKetuaUmum db session s1 classId id1 true).1 s1 classId
      = some e1 :=
    (findActiveEnrollment_congr _ db hE1 s1 classId).trans he1
  have he2' : findActiveEnrollment
      (assignKetuaUmum db session s1 classId id1 true).1 s2 classId
      = some e2 :=
    (findActiveEnrollment_congr _ db hE1 s2 classId).trans he2
  have hinv1 : roleCount (assignKetuaUmum db session s1 classId id1 true).1
      classId "KETUA_UMUM" ≤ 1 := by
    rw [roleCount_ku_eq_filter_length, hKU1]
    exact le_refl 1
  obtain ⟨hE2, hKU2⟩ := assignKetuaUmum_success_state
    (assignKetuaUmum db session s1 classId id1 true).1 session actor hrole
    s2 classId id2 e2 he2' hinv1
  have he1'' : findActiveEnrollment
      (assignKetuaUmum (assignKetuaUmum db session s1 classId id1 true).1
        session s2 classId id2 true).1 s1 classId = some e1 :=
    (findActiveEnrollment_congr _ _ hE2 s1 classId).trans he1'
  have he2'' : findActiveEnrollment
      (assignKetuaUmum (assignKetuaUmum db session s1 classId id1 true).1
        session s2 classId id2 true).1 s2 classId = some e2 :=
    (findActiveEnrollment_congr _ _ hE2 s2 classId).trans he2'
  refine ⟨?_, ?_, ?_, ?_⟩
  · rw [isKetuaUmum_of_unique_row _ classId _ hKU1 s1 e1 he1']
    simp
  · rw [isKetuaUmum_of_unique_row _ classId _ hKU2 s1 e1 he1'']
    exact beq_eq_false_iff_ne.2 (Ne.symm hne)
  · rw [isKetuaUmum_of_unique_row _ classId _ hKU2 s2 e2 he2'']
    simp
  · rw [roleCount_ku_eq_filter_length, hKU2]
    rfl

/-- Database for the C2 witness: "u1" and "u2" actively enrolled in "c1", no
privilege rows yet, admin session. -/
def replDb : DB :=
  { enrollments :=
      [{ id := "e1", userId := "u1", classId := "c1", status := "ACTIVE" },
       { id := "e2", userId := "u2", classId := "c1", status := "ACTIVE" }],
    mahasiswaPrivileges := [], dosenPrivileges := [], groups := [],
    fanIlmus := [] }

/-- Witness for C2 on replDb. -/
theorem general_leader_replacement_witness :
    isKetuaUmum (assignKetuaUmum replDb
      (some { id := "adm", userType := "admin" }) "u1" "c1" "p1" true).1 "u1"
      "c1" = true ∧
    isKetuaUmum (assignKetuaUmum (assignKetuaUmum replDb
        (some { id := "adm", userType := "admin" }) "u1" "c1" "p1" true).1
      (some { id := "adm", userType := "admin" }) "u2" "c1" "p2" true).1 "u1"
      "c1" = false ∧
    isKetuaUmum (assignKetuaUmum (assignKetuaUmum replDb
        (some { id := "adm", userType := "admin" }) "u1" "c1" "p1" true).1
      (some { id := "adm", userType := "admin" }) "u2" "c1" "p2" true).1 "u2"
      "c1" = true ∧
    roleCount (assignKetuaUmum (assignKetuaUmum replDb
        (some { id := "adm", userType := "admin" }) "u1" "c1" "p1" true).1
      (some { id := "adm", userType := "admin" }) "u2" "c1" "p2" true).1 "c1"
      "KETUA_UMUM" = 1 :=
  general_leader_replacement replDb (some { id := "adm", userType := "admin" })
    { id := "adm", userType := "admin" } rfl "c1" "u1" "u2" "p1" "p2"
    { id := "e1", userId := "u1", classId := "c1", status := "ACTIVE" }
    { id := "e2", userId := "u2", classId := "c1", status := "ACTIVE" }
    rfl rfl (by decide) (by decide)

/-! ### C3 -/

/-- Delete-then-insert for a class-wide singular kind (Secretary, Treasurer,
Discipline-Officer) preserves singularity. -/
theorem singularRows_insert_classKind (rows : List MahasiswaPrivilegeRow)
    (classId tU : String) (x : MahasiswaPrivilegeRow)
    (hxc : x.classId = classId) (hxt : x.privilegeType = tU)
    (hne1 : tU ≠ "KETUA_KELOMPOK") (hne2 : tU ≠ "KETUA_FAN_ILMU")
    (hinv : singularRows rows) :
    singularRows (rows.filter (fun r =>
      !(r.classId == classId && r.privilegeType == tU)) ++ [x]) := by
  obtain ⟨h1, h2, h3⟩ := hinv
  refine ⟨?_, ?_, ?_⟩
  · intro c t htmem
    rw [roleCountRows]
    by_cases hct : c = classId ∧ t = tU
    · rcases hct with ⟨hc, htt⟩
      have hwipe : ∀ a : MahasiswaPrivilegeRow,
          (a.classId == c && a.privilegeType == t) = true →
          (!(a.classId == classId && a.privilegeType == tU)) = false := by
        intro a hpa
        rw [← hc, ← htt, hpa]
        rfl
      have hx : (x.classId == c && x.privilegeType == t) = true := by
        simp [hxc, hxt, hc, htt]
      rw [countP_replace_wiped rows hwipe hx]
    · have hkeep : ∀ a : MahasiswaPrivilegeRow,
          (a.classId == c && a.privilegeType == t) = true →
          (!(a.classId == classId && a.privilegeType == tU)) = true := by
        intro a hpa
        simp only [Bool.and_eq_true, beq_iff_eq] at hpa
        rw [Bool.not_eq_true', Bool.eq_false_iff]
        intro hmatch
        simp only [Bool.and_eq_true, beq_iff_eq] at hmatch
        exact hct ⟨hpa.1.symm.trans hmatch.1, hpa.2.symm.trans hmatch.2⟩
      have hx : (x.classId == c && x.privilegeType == t) = false := by
        rw [Bool.eq_false_iff]
        intro hmatch
        simp only [Bool.and_eq_true, beq_iff_eq] at hmatch
        exact hct ⟨hmatch.1.symm.trans hxc, hmatch.2.symm.trans hxt⟩
      rw [countP_replace_untouched rows hkeep hx]
      exact h1 c t htmem
  · intro c g
    rw [groupLeaderCountRows]
    have hkeep : ∀ a : MahasiswaPrivilegeRow,
        (a.classId == c && a.privilegeType == "KETUA_KELOMPOK" &&
          a.groupId == some g) = true →
        (!(a.classId == classId && a.privilegeType == tU)) = true := by
      intro a hpa
      simp only [Bool.and_eq_true, beq_iff_eq] at hpa
      rw [Bool.not_eq_true', Bool.eq_false_iff]
      intro hmatch
      simp only [Bool.and_eq_true, beq_iff_eq] at hmatch
      exact hne1 (hmatch.2.symm.trans hpa.1.2)
    have hx : (x.classId == c && x.privilegeType == "KETUA_KELOMPOK" &&
        x.groupId == some g) = false := by
      rw [Bool.eq_false_iff]
      intro hmatch
      simp only [Bool.and_eq_true, beq_iff_eq] at hmatch
      exact hne1 (hxt.symm.trans hmatch.1.2)
    rw [countP_replace_untouched rows hkeep hx]
    exact h2 c g
  · intro c f
    rw [fanLeaderCountRows]
    have hkeep : ∀ a : MahasiswaPrivilegeRow,
        (a.classId == c && a.privilegeType == "KETUA_FAN_ILMU" &&
          a.fanIlmuId == some f) = true →
        (!(a.classId == classId && a.privilegeType == tU)) = true := by
      intro a hpa
      simp only [Bool.and_eq_true, beq_iff_eq] at hpa
      rw [Bool.not_eq_true', Bool.eq_false_iff]
      intro hmatch
      simp only [Bool.and_eq_true, beq_iff_eq] at hmatch
      exact hne2 (hmatch.2.symm.trans hpa.1.2)
    have hx : (x.classId == c && x.privilegeType == "KETUA_FAN_ILMU" &&
        x.fanIlmuId == some f) = false := by
      rw [Bool.eq_false_iff]
      intro hmatch
      simp only [Bool.and_eq_true, beq_iff_eq] at hmatch
      exact hne2 (hxt.symm.trans hmatch.1.2)
    rw [countP_replace_untouched rows hkeep hx]
    exact h3 c f

/-- Delete-then-insert for the Group-Leader kind, scoped to one
(class, groupId) key, preserves singularity. -/
theorem singularRows_insert_groupKind (rows : List MahasiswaPrivilegeRow)
    (classId : String) (og : Option String) (x : MahasiswaPrivilegeRow)
    (hxc : x.classId = classId) (hxt : x.privilegeType = "KETUA_KELOMPOK")
    (hxg : x.groupId = og) (hinv : singularRows rows) :
    singularRows (rows.filter (fun r =>
      !(r.classId == classId && r.privilegeType == "KETUA_KELOMPOK" &&
        r.groupId == og)) ++ [x]) := by
  obtain ⟨h1, h2, h3⟩ := hinv
  refine ⟨?_, ?_, ?_⟩
  · intro c t htmem
    have htne : t ≠ "KETUA_KELOMPOK" := by
      simp only [List.mem_cons, List.not_mem_nil, or_false] at htmem
      rcases htmem with h | h | h <;> subst h <;> decide
    rw [roleCountRows]
    have hkeep : ∀ a : MahasiswaPrivilegeRow,
        (a.classId == c && a.privilegeType == t) = true →
        (!(a.classId == classId && a.privilegeType == "KETUA_KELOMPOK" &&
          a.groupId == og)) = true := by
      intro a hpa
      simp only [Bool.and_eq_true, beq_iff_eq] at hpa
      rw [Bool.not_eq_true', Bool.eq_false_iff]
      intro hmatch
      simp only [Bool.and_eq_true, beq_iff_eq] at hmatch
      exact htne (hpa.2.symm.trans hmatch.1.2)
    have hx : (x.classId == c && x.privilegeType == t) = false := by
      rw [Bool.eq_false_iff]
      intro hmatch
      simp only [Bool.and_eq_true, beq_iff_eq] at hmatch
      exact htne (hmatch.2.symm.trans hxt)
    rw [countP_replace_untouched rows hkeep hx]
    exact h1 c t htmem
  · intro c g
    rw [groupLeaderCountRows]
    by_cases hcg : c = classId ∧ some g = og
    · rcases hcg with ⟨hc, hg⟩
      have hwipe : ∀ a : MahasiswaPrivilegeRow,
          (a.classId == c && a.privilegeType == "KETUA_KELOMPOK" &&
            a.groupId == some g) = true →
          (!(a.classId == classId && a.privilegeType == "KETUA_KELOMPOK" &&
            a.groupId == og)) = false := by
        intro a hpa
        rw [← hc, ← hg, hpa]
        rfl
      have hx : (x.classId == c && x.privilegeType == "KETUA_KELOMPOK" &&
          x.groupId == some g) = true := by
        simp [hxc, hxt, hxg, hc, hg.symm]
      rw [countP_replace_wiped rows hwipe hx]
    · have hkeep : ∀ a : MahasiswaPrivilegeRow,
          (a.classId == c && a.privilegeType == "KETUA_KELOMPOK" &&
            a.groupId == some g) = true →
          (!(a.classId == classId && a.privilegeType == "KETUA_KELOMPOK" &&
            a.groupId == og)) = true := by
        intro a hpa
        simp only [Bool.and_eq_true, beq_iff_eq] at hpa
        rw [Bool.not_eq_true', Bool.eq_false_iff]
        intro hmatch
        simp only [Bool.and_eq_true, beq_iff_eq] at hmatch
        exact hcg ⟨hpa.1.1.symm.trans hmatch.1.1, hpa.2.symm.trans hmatch.2⟩
      have hx : (x.classId == c && x.privilegeType == "KETUA_KELOMPOK" &&
          x.groupId == some g) = false := by
        rw [Bool.eq_false_iff]
        intro hmatch
        simp only [Bool.and_eq_true, beq_iff_eq] at hmatch
        exact hcg ⟨hmatch.1.1.symm.trans hxc, hmatch.2.symm.trans hxg⟩
      rw [countP_replace_untouched rows hkeep hx]
      exact h2 c g
  · intro c f
    rw [fanLeaderCountRows]
    have hkeep : ∀ a : MahasiswaPrivilegeRow,
        (a.classId == c && a.privilegeType == "KETUA_FAN_ILMU" &&
          a.fanIlmuId == some f) = true →
        (!(a.classId == classId && a.privilegeType == "KETUA_KELOMPOK" &&
          a.groupId == og)) = true := by
      intro a hpa
      simp only [Bool.and_eq_true, beq_iff_eq] at hpa
      rw [Bool.not_eq_true', Bool.eq_false_iff]
      intro hmatch
      simp only [Bool.and_eq_true, beq_iff_eq] at hmatch
      exact absurd (hpa.1.2.symm.trans hmatch.1.2) (by decide)
    have hx : (x.classId == c && x.privilegeType == "KETUA_FAN_ILMU" &&
        x.fanIlmuId == some f) = false := by
      rw [Bool.eq_false_iff]
      intro hmatch
      simp only [Bool.and_eq_true, beq_iff_eq] at hmatch
      exact absurd (hxt.symm.trans hmatch.1.2) (by decide)
    rw [countP_replace_untouched rows hkeep hx]
    exact h3 c f

/-- Delete-then-insert for the StudyArea-Leader kind, scoped to one
(class, fanIlmuId) key, preserves singularity. -/
theorem singularRows_insert_fanKind (rows : List MahasiswaPrivilegeRow)
    (classId : String) (og : Option String) (x : MahasiswaPrivilegeRow)
    (hxc : x.classId = classId) (hxt : x.privilegeType = "KETUA_FAN_ILMU")
    (hxg : x.fanIlmuId = og) (hinv : singularRows rows) :
    singularRows (rows.filter (fun r =>
      !(r.classId == classId && r.privilegeType == "KETUA_FAN_ILMU" &&
        r.fanIlmuId == og)) ++ [x]) := by
  obtain ⟨h1, h2, h3⟩ := hinv
  refine ⟨?_, ?_, ?_⟩
  · intro c t htmem
    have htne : t ≠ "KETUA_FAN_ILMU" := by
      simp only [List.mem_cons, List.not_mem_nil, or_false] at htmem
      rcases htmem with h | h | h <;> subst h <;> decide
    rw [roleCountRows]
    have hkeep : ∀ a : MahasiswaPrivilegeRow,
        (a.classId == c && a.privilegeType == t) = true →
        (!(a.classId == classId && a.privilegeType == "KETUA_FAN_ILMU" &&
          a.fanIlmuId == og)) = true := by
      intro a hpa
      simp only [Bool.and_eq_true, beq_iff_eq] at hpa
      rw [Bool.not_eq_true', Bool.eq_false_iff]
      intro hmatch
      simp only [Bool.and_eq_true, beq_iff_eq] at hmatch
      exact htne (hpa.2.symm.trans hmatch.1.2)
    have hx : (x.classId == c && x.privilegeType == t) = false := by
      rw [Bool.eq_false_iff]
      intro hmatch
      simp only [Bool.and_eq_true, beq_iff_eq] at hmatch
      exact htne (hmatch.2.symm.trans hxt)
    rw [countP_replace_untouched rows hkeep hx]
    exact h1 c t htmem
  · intro c g
    rw [groupLeaderCountRows]
    have hkeep : ∀ a : MahasiswaPrivilegeRow,
        (a.classId == c && a.privilegeType == "KETUA_KELOMPOK" &&
          a.groupId == some g) = true →
        (!(a.classId == classId && a.privilegeType == "KETUA_FAN_ILMU" &&
          a.fanIlmuId == og)) = true := by
      intro a hpa
      simp only [Bool.and_eq_true, beq_iff_eq] at hpa
      rw [Bool.not_eq_true', Bool.eq_false_iff]
      intro hmatch
      simp only [Bool.and_eq_true, beq_iff_eq] at hmatch
      exact absurd (hpa.1.2.symm.trans hmatch.1.2) (by decide)
    have hx : (x.classId == c && x.privilegeType == "KETUA_KELOMPOK" &&
        x.groupId == some g) = false := by
      rw [Bool.eq_false_iff]
      intro hmatch
      simp only [Bool.and_eq_true, beq_iff_eq] at hmatch
      exact absurd (hxt.symm.trans hmatch.1.2) (by decide)
    rw [countP_replace_untouched rows hkeep hx]
    exact h2 c g
  · intro c f
    rw [fanLeaderCountRows]
    by_cases hcg : c = classId ∧ some f = og
    · rcases hcg with ⟨hc, hg⟩
      have hwipe : ∀ a : MahasiswaPrivilegeRow,
          (a.classId == c && a.privilegeType == "KETUA_FAN_ILMU" &&
            a.fanIlmuId == some f) = true →
          (!(a.classId == classId && a.privilegeType == "KETUA_FAN_ILMU" &&
            a.fanIlmuId == og)) = false := by
        intro a hpa
        rw [← hc, ← hg, hpa]
        rfl
      have hx : (x.classId == c && x.privilegeType == "KETUA_FAN_ILMU" &&
          x.fanIlmuId == some f) = true := by
        simp [hxc, hxt, hxg, hc, hg.symm]
      rw [countP_replace_wiped rows hwipe hx]
    · have hkeep : ∀ a : MahasiswaPrivilegeRow,
          (a.classId == c && a.privilegeType == "KETUA_FAN_ILMU" &&
            a.fanIlmuId == some f) = true →
          (!(a.classId == classId && a.privilegeType == "KETUA_FAN_ILMU" &&
            a.fanIlmuId == og)) = true := by
        intro a hpa
        simp only [Bool.and_eq_true, beq_iff_eq] at hpa
        rw [Bool.not_eq_true', Bool.eq_false_iff]
        intro hmatch
        simp only [Bool.and_eq_true, beq_iff_eq] at hmatch
        exact hcg ⟨hpa.1.1.symm.trans hmatch.1.1, hpa.2.symm.trans hmatch.2⟩
      have hx : (x.classId == c && x.privilegeType == "KETUA_FAN_ILMU" &&
          x.fanIlmuId == some f) = false := by
        rw [Bool.eq_false_iff]
        intro hmatch
        simp only [Bool.and_eq_true, beq_iff_eq] at hmatch
        exact hcg ⟨hmatch.1.1.symm.trans hxc, hmatch.2.symm.trans hxg⟩
      rw [countP_replace_untouched rows hkeep hx]
      exact h3 c f

/-- C3: every successful assignMahasiswaPrivilege call over the declared
student role-kind arguments preserves the SINGULARITY invariant — at most one
Secretary/Treasurer/Discipline-Officer row per class, at most one GroupLeader
row per (class, group), and at most one StudyAreaLeader row per
(class, study area). -/
theorem singular_invariant_preserved (db : DB) (session : Option String)
    (classId targetUserId privilegeType : String)
    (opts : Option AssignOptions) (newId : String) (createOk : Bool)
    (ht : privilegeType ∈ (["sekretaris", "bendahara", "kamtib",
      "ketua_kelompok", "ketua_fan_ilmu"] : List String))
    (hinv : singularInvariant db) (m : String)
    (hsucc : (assignMahasiswaPrivilege db session classId targetUserId
        privilegeType opts newId createOk).2 = PrivilegeFormState.success m) :
    singularInvariant (assignMahasiswaPrivilege db session classId
      targetUserId privilegeType opts newId createOk).1 := by
  cases hver : verifyKetuaUmum db session classId with
  | error msg =>
    simp [assignMahasiswaPrivilege, hver] at hsucc
  | ok actorId =>
    cases henr : getEnrollmentId db targetUserId classId with
    | none =>
      simp [assignMahasiswaPrivilege, hver, henr] at hsucc
    | some eid =>
      cases createOk with
      | false =>
        exfalso
        simp only [assignMahasiswaPrivilege, hver, henr, Bool.false_eq_true,
          if_false] at hsucc
        split at hsucc
        · simp at hsucc
        · split at hsucc
          · simp at hsucc
          · simp at hsucc
      | true =>
        simp only [List.mem_cons, List.not_mem_nil, or_false] at ht
        rcases ht with h | h | h | h | h <;> subst h
        · rw [assignMahasiswaPrivilege_reduces db session classId targetUserId
            "sekretaris" opts newId true actorId hver eid henr
            (by simp [(by decide : ("sekretaris" == "ketua_kelompok")
              = false)])
            (by simp [(by decide : ("sekretaris" == "ketua_fan_ilmu")
              = false)])]
          simp only [eq_self_iff_true, if_true]
          have hdel : assignDeleteMany db.mahasiswaPrivileges classId
              "sekretaris" opts = db.mahasiswaPrivileges.filter (fun r =>
                !(r.classId == classId &&
                  r.privilegeType == toMahasiswaPrismaEnum "sekretaris")) := by
            simp [assignDeleteMany,
              (by decide : ((["sekretaris", "bendahara", "kamtib"] :
                List String).contains "sekretaris") = true),
              (by decide : ("sekretaris" == "ketua_kelompok") = false),
              (by decide : ("sekretaris" == "ketua_fan_ilmu") = false)]
          rw [hdel]
          exact singularRows_insert_classKind db.mahasiswaPrivileges classId
            (toMahasiswaPrismaEnum "sekretaris") _ rfl rfl (by decide)
            (by decide) hinv
        · rw [assignMahasiswaPrivilege_reduces db session classId targetUserId
            "bendahara" opts newId true actorId hver eid henr
            (by simp [(by decide : ("bendahara" == "ketua_kelompok")
              = false)])
            (by simp [(by decide : ("bendahara" == "ketua_fan_ilmu")
              = false)])]
          simp only [eq_self_iff_true, if_true]
          have hdel : assignDeleteMany db.mahasiswaPrivileges classId
              "bendahara" opts = db.mahasiswaPrivileges.filter (fun r =>
                !(r.classId == classId &&
                  r.privilegeType == toMahasiswaPrismaEnum "bendahara")) := by
            simp [assignDeleteMany,
              (by decide : ((["sekretaris", "bendahara", "kamtib"] :
                List String).contains "bendahara") = true),
              (by decide : ("bendahara" == "ketua_kelompok") = false),
              (by decide : ("bendahara" == "ketua_fan_ilmu") = false)]
          rw [hdel]
          exact singularRows_insert_classKind db.mahasiswaPrivileges classId
            (toMahasiswaPrismaEnum "bendahara") _ rfl rfl (by decide)
            (by decide) hinv
        · rw [assignMahasiswaPrivilege_reduces db session classId targetUserId
            "kamtib" opts newId true actorId hver eid henr
            (by simp [(by decide : ("kamtib" == "ketua_kelompok") = false)])
            (by simp [(by decide : ("kamtib" == "ketua_fan_ilmu") = false)])]
          simp only [eq_self_iff_true, if_true]
          have hdel : assignDeleteMany db.mahasiswaPrivileges classId
              "kamtib" opts = db.mahasiswaPrivileges.filter (fun r =>
                !(r.classId == classId &&
                  r.privilegeType == toMahasiswaPrismaEnum "kamtib")) := by
            simp [assignDeleteMany,
              (by decide : ((["sekretaris", "bendahara", "kamtib"] :
                List String).contains "kamtib") = true),
              (by decide : ("kamtib" == "ketua_kelompok") = false),
              (by decide : ("kamtib" == "ketua_fan_ilmu") = false)]
          rw [hdel]
          exact singularRows_insert_classKind db.mahasiswaPrivileges classId
            (toMahasiswaPrismaEnum "kamtib") _ rfl rfl (by decide)
            (by decide) hinv
        · by_cases htr : truthyStr (optGroupId opts) = true
          · rw [assignMahasiswaPrivilege_reduces db session classId
              targetUserId "ketua_kelompok" opts newId true actorId hver eid
              henr (by simp [htr])
              (by simp [(by decide : ("ketua_kelompok" == "ketua_fan_ilmu")
                = false)])]
            simp only [eq_self_iff_true, if_true]
            have hdel : assignDeleteMany db.mahasiswaPrivileges classId
                "ketua_kelompok" opts = db.mahasiswaPrivileges.filter
                (fun r => !(r.classId == classId &&
                  r.privilegeType == "KETUA_KELOMPOK" &&
                  r.groupId == optGroupId opts)) := by
              simp [assignDeleteMany, htr,
                (by decide : ((["sekretaris", "bendahara", "kamtib"] :
                  List String).contains "ketua_kelompok") = false),
                (by decide : ("ketua_kelompok" == "ketua_fan_ilmu") = false)]
            rw [hdel]
            refine singularRows_insert_groupKind db.mahasiswaPrivileges
              classId (optGroupId opts) _ rfl ?_ rfl hinv
            rfl
          · exfalso
            have htr' : truthyStr (optGroupId opts) = false := by
              revert htr
              cases truthyStr (optGroupId opts) <;> simp
            simp [assignMahasiswaPrivilege, hver, henr, htr'] at hsucc
        · by_cases htr : truthyStr (optFanIlmuId opts) = true
          · rw [assignMahasiswaPrivilege_reduces db session classId
              targetUserId "ketua_fan_ilmu" opts newId true actorId hver eid
              henr
              (by simp [(by decide : ("ketua_fan_ilmu" == "ketua_kelompok")
                = false)])
              (by simp [htr])]
            simp only [eq_self_iff_true, if_true]
            have hdel : assignDeleteMany db.mahasiswaPrivileges classId
                "ketua_fan_ilmu" opts = db.mahasiswaPrivileges.filter
                (fun r => !(r.classId == classId &&
                  r.privilegeType == "KETUA_FAN_ILMU" &&
                  r.fanIlmuId == optFanIlmuId opts)) := by
              simp [assignDeleteMany, htr,
                (by decide : ((["sekretaris", "bendahara", "kamtib"] :
                  List String).contains "ketua_fan_ilmu") = false),
                (by decide : ("ketua_fan_ilmu" == "ketua_kelompok") = false)]
            rw [hdel]
            refine singularRows_insert_fanKind db.mahasiswaPrivileges
              classId (optFanIlmuId opts) _ rfl ?_ rfl hinv
            rfl
          · exfalso
            have htr' : truthyStr (optFanIlmuId opts) = false := by
              revert htr
              cases truthyStr (optFanIlmuId opts) <;> simp
            simp [assignMahasiswaPrivilege, hver, henr, htr'] at hsucc

/-- Any single-row store satisfies the SINGULARITY condition. -/
theorem singularRows_of_singleton (row : MahasiswaPrivilegeRow) :
    singularRows [row] := by
  refine ⟨?_, ?_, ?_⟩
  · intro c t _
    exact le_trans (List.countP_le_length _) (by simp)
  · intro c g
    exact le_trans (List.countP_le_length _) (by simp)
  · intro c f
    exact le_trans (List.countP_le_length _) (by simp)

/-- Database for the C3 witness: "u0" is Ketua Umum of "c1", target "u1"
actively enrolled. -/
def invDb : DB :=
  { enrollments :=
      [{ id := "e0", userId := "u0", classId := "c1", status := "ACTIVE" },
       { id := "e1", userId := "u1", classId := "c1", status := "ACTIVE" }],
    mahasiswaPrivileges :=
      [{ id := "p0", enrollmentId := "e0", classId := "c1",
         privilegeType := "KETUA_UMUM", groupId := none, fanIlmuId := none,
         assignedBy := "adm" }],
    dosenPrivileges := [], groups := [], fanIlmus := [] }

/-- Witness for C3: a successful Secretary assignment on invDb preserves the
invariant. -/
theorem singular_invariant_preserved_witness :
    ("sekretaris" ∈ (["sekretaris", "bendahara", "kamtib", "ketua_kelompok",
        "ketua_fan_ilmu"] : List String) ∧
      singularInvariant invDb ∧
      (assignMahasiswaPrivilege invDb (some "u0") "c1" "u1" "sekretaris" none
          "p9" true).2
        = PrivilegeFormState.success "Privilege berhasil diberikan") ∧
    singularInvariant (assignMahasiswaPrivilege invDb (some "u0") "c1" "u1"
      "sekretaris" none "p9" true).1 :=
  have hinv : singularInvariant invDb := singularRows_of_singleton
    { id := "p0", enrollmentId := "e0", classId := "c1",
      privilegeType := "KETUA_UMUM", groupId := none, fanIlmuId := none,
      assignedBy := "adm" }
  ⟨⟨by decide, hinv, by decide⟩,
    singular_invariant_preserved invDb (some "u0") "c1" "u1" "sekretaris"
      none "p9" true (by decide) hinv "Privilege berhasil diberikan"
      (by decide)⟩

end ClassMe
